import Mathlib

/-
Verification of the friend-relationship and post-visibility subsystem of a
small social-networking application.  The embedding below follows the two
SQL migrations (table layout, UNIQUE constraints, row-level-security
policies) and the client operations in Feed.tsx, PostDetail, Profile,
Friends.tsx and FriendRequests (toggleLike, sharePost, updatePost,
deletePost, handleDeleteComment, handleFriendRequest, handleRequest,
fetchPosts, fetchPost, fetchUserPosts).
-/

namespace SocialApp

/-- Opaque user identifier (a uuid in the schema). -/
abbrev UserId := Nat

/-- The acting identity of a request: `none` models an anonymous caller,
for which the SQL comparison `auth.uid() = x` is null and hence not true. -/
abbrev Viewer := Option UserId

/-- friends.status, constrained by CHECK (status IN ('pending', 'accepted')). -/
inductive FriendStatus where
  | pending
  | accepted
deriving DecidableEq, Repr

/-- posts.visibility: a text column whose value is 'public' (the default) or
'friends' (the two values the application writes). -/
inductive Visibility where
  | public
  | friends
deriving DecidableEq, Repr

/-- A row of the friends table: id, sender_id, receiver_id, status, created_at. -/
structure FriendEdge where
  id : Nat
  sender_id : UserId
  receiver_id : UserId
  status : FriendStatus
  created_at : Nat
deriving DecidableEq, Repr

/-- A row of the posts table (the columns the verified operations touch). -/
structure Post where
  id : Nat
  author_id : UserId
  content : String
  image_url : Option String
  visibility : Visibility
  created_at : Nat
deriving DecidableEq, Repr

/-- A row of the likes table, identified by its UNIQUE(post_id, user_id) pair.
The surrogate uuid primary key is never consulted by the application logic. -/
structure Like where
  post_id : Nat
  user_id : UserId
deriving DecidableEq, Repr

/-- A row of the shared_posts table, identified by its UNIQUE(post_id, user_id)
pair; the surrogate uuid primary key is never consulted by the application. -/
structure SharedPost where
  post_id : Nat
  user_id : UserId
deriving DecidableEq, Repr

/-- A row of the comments table (the columns the verified operations touch). -/
structure Comment where
  id : Nat
  post_id : Nat
  user_id : UserId
  content : String
deriving DecidableEq, Repr

/-- SQL `auth.uid() = x` for a possibly anonymous caller: comparing null with
anything is not true, so an anonymous viewer never passes an identity test. -/
def uidEq (viewer : Viewer) (x : UserId) : Bool :=
  match viewer with
  | some u => u == x
  | none => false

/-- The posts SELECT policy "Posts are viewable based on visibility":
visibility = 'public' OR auth.uid() = author_id OR (visibility = 'friends'
AND EXISTS a friends row connecting auth.uid() and author_id in either
direction with status 'accepted'). -/
def canReadPost (viewer : Viewer) (p : Post) (friendRows : List FriendEdge) : Bool :=
  p.visibility == Visibility.public ||
  uidEq viewer p.author_id ||
  (p.visibility == Visibility.friends &&
    friendRows.any (fun e =>
      ((uidEq viewer e.sender_id && e.receiver_id == p.author_id) ||
       (uidEq viewer e.receiver_id && e.sender_id == p.author_id)) &&
      e.status == FriendStatus.accepted))

/-- Error surfaced by the persistence layer when an INSERT violates a
UNIQUE constraint. -/
inductive DbError where
  | uniqueViolation
deriving DecidableEq, Repr

/-- INSERT into the friends table under UNIQUE(sender_id, receiver_id): the
insert is rejected exactly when an existing row carries the same ordered
(sender_id, receiver_id) pair; otherwise the row is appended. -/
def insertFriendEdge (db : List FriendEdge) (e : FriendEdge) :
    Except DbError (List FriendEdge) :=
  if db.any (fun x => x.sender_id == e.sender_id && x.receiver_id == e.receiver_id)
  then Except.error DbError.uniqueViolation
  else Except.ok (db ++ [e])

/-- handleFriendRequest, send branch: insert a friends row with sender_id set
to the acting user, receiver_id set to the profile being viewed, and the
status column left to its 'pending' default.  The INSERT policy
WITH CHECK (auth.uid() = sender_id) is satisfied by construction. -/
def sendFriendRequest (actor target : UserId) (newId createdAt : Nat)
    (db : List FriendEdge) : Except DbError (List FriendEdge) :=
  insertFriendEdge db
    { id := newId, sender_id := actor, receiver_id := target,
      status := FriendStatus.pending, created_at := createdAt }

/-- Accepting a friend request: the client issues UPDATE friends
SET status = 'accepted' WHERE id = requestId, and the UPDATE policy
"Users can accept/reject friend requests" (USING auth.uid() = receiver_id)
restricts the statement to rows whose receiver is the acting user; rows not
passing the policy filter are untouched. -/
def acceptFriendRequest (actor : UserId) (requestId : Nat)
    (db : List FriendEdge) : List FriendEdge :=
  db.map (fun e =>
    if e.id == requestId && actor == e.receiver_id
    then { e with status := FriendStatus.accepted }
    else e)

/-- Deleting a friends row by id (reject, cancel or unfriend): the DELETE
policy "Users can remove friends" (USING auth.uid() IN (sender_id,
receiver_id)) restricts the statement to rows the acting user is a party to. -/
def deleteFriendEdge (actor : UserId) (edgeId : Nat)
    (db : List FriendEdge) : List FriendEdge :=
  db.filter (fun e =>
    !(e.id == edgeId && (actor == e.sender_id || actor == e.receiver_id)))

/-- The friends rows connecting users a and b, counting both directions. -/
def edgesConnecting (db : List FriendEdge) (a b : UserId) : List FriendEdge :=
  db.filter (fun e =>
    (e.sender_id == a && e.receiver_id == b) ||
    (e.sender_id == b && e.receiver_id == a))

/-- Membership test of the (post, user) pair in the likes table, as the
client computes it from the fetched likes join of the post. -/
def likePairExists (db : List Like) (pid : Nat) (uid : UserId) : Bool :=
  db.any (fun l => l.post_id == pid && l.user_id == uid)

/-- INSERT into the likes table under UNIQUE(post_id, user_id). -/
def insertLike (db : List Like) (l : Like) : Except DbError (List Like) :=
  if likePairExists db l.post_id l.user_id
  then Except.error DbError.uniqueViolation
  else Except.ok (db ++ [l])

/-- DELETE FROM likes matching { post_id, user_id }. -/
def deleteLike (db : List Like) (pid : Nat) (uid : UserId) : List Like :=
  db.filter (fun l => !(l.post_id == pid && l.user_id == uid))

/-- toggleLike from Feed.tsx: if the acting user's like row for the post is
present, delete the join row, otherwise insert it.  The insert's result is
not error-checked by the client, so a rejected insert leaves the table as
it was. -/
def toggleLike (db : List Like) (pid : Nat) (uid : UserId) : List Like :=
  if likePairExists db pid uid
  then deleteLike db pid uid
  else
    match insertLike db { post_id := pid, user_id := uid } with
    | Except.ok db2 => db2
    | Except.error _ => db

/-- Membership test of the (post, user) pair in the shared_posts table. -/
def sharePairExists (db : List SharedPost) (pid : Nat) (uid : UserId) : Bool :=
  db.any (fun s => s.post_id == pid && s.user_id == uid)

/-- INSERT into the shared_posts table under UNIQUE(post_id, user_id). -/
def insertShare (db : List SharedPost) (s : SharedPost) :
    Except DbError (List SharedPost) :=
  if sharePairExists db s.post_id s.user_id
  then Except.error DbError.uniqueViolation
  else Except.ok (db ++ [s])

/-- DELETE FROM shared_posts matching { post_id, user_id }. -/
def deleteShare (db : List SharedPost) (pid : Nat) (uid : UserId) : List SharedPost :=
  db.filter (fun s => !(s.post_id == pid && s.user_id == uid))

/-- sharePost from Feed.tsx: the same toggle discipline as toggleLike, over
the shared_posts join. -/
def toggleShare (db : List SharedPost) (pid : Nat) (uid : UserId) : List SharedPost :=
  if sharePairExists db pid uid
  then deleteShare db pid uid
  else
    match insertShare db { post_id := pid, user_id := uid } with
    | Except.ok db2 => db2
    | Except.error _ => db

/-- The UNIQUE(post_id, user_id) constraint of the likes table as a table
invariant: no two rows carry the same (post, user) pair. -/
def LikesUnique (db : List Like) : Prop :=
  List.Pairwise (fun a b => ¬(a.post_id = b.post_id ∧ a.user_id = b.user_id)) db

/-- The UNIQUE(post_id, user_id) constraint of the shared_posts table as a
table invariant: no two rows carry the same (post, user) pair. -/
def SharesUnique (db : List SharedPost) : Prop :=
  List.Pairwise (fun a b => ¬(a.post_id = b.post_id ∧ a.user_id = b.user_id)) db

/-- updatePost from Feed.tsx: UPDATE posts SET content WHERE id = postId AND
author_id = actor (the .match clause); the UPDATE policy "Users can update
own posts" (USING auth.uid() = author_id) imposes the same author filter. -/
def updatePost (actor : UserId) (posts : List Post) (postId : Nat)
    (newContent : String) : List Post :=
  posts.map (fun p =>
    if p.id == postId && p.author_id == actor
    then { p with content := newContent }
    else p)

/-- deletePost from Feed.tsx: DELETE FROM posts WHERE id = postId AND
author_id = actor; the DELETE policy "Users can delete own posts" imposes
the same author filter. -/
def deletePost (actor : UserId) (posts : List Post) (postId : Nat) : List Post :=
  posts.filter (fun p => !(p.id == postId && p.author_id == actor))

/-- handleDeleteComment from PostDetail: DELETE FROM comments WHERE
id = commentId AND user_id = actor; the DELETE policy "Users can delete own
comments" imposes the same author filter. -/
def deleteComment (actor : UserId) (comments : List Comment)
    (commentId : Nat) : List Comment :=
  comments.filter (fun c => !(c.id == commentId && c.user_id == actor))

/-- The store's reply to updatePost as the client destructures it: the
resulting table and the reply's error field.  An UPDATE whose .match clause
and row-level policy exclude every row is a successful statement affecting
zero rows: the reply's error field is null, so the client's
if-error-then-throw check does not fire and nothing is surfaced. -/
def updatePostReply (actor : UserId) (posts : List Post) (postId : Nat)
    (newContent : String) : List Post × Option DbError :=
  (updatePost actor posts postId newContent, none)

/-- The store's reply to deletePost: a DELETE whose filters match no row
succeeds affecting zero rows, with a null error field. -/
def deletePostReply (actor : UserId) (posts : List Post) (postId : Nat) :
    List Post × Option DbError :=
  (deletePost actor posts postId, none)

/-- The store's reply to handleDeleteComment: a DELETE whose filters match
no row succeeds affecting zero rows, with a null error field. -/
def deleteCommentReply (actor : UserId) (comments : List Comment)
    (commentId : Nat) : List Comment × Option DbError :=
  (deleteComment actor comments commentId, none)

/-- Feed.fetchPosts, original-posts query: SELECT over the posts table; the
store applies the SELECT policy canReadPost to every row. -/
def fetchFeedPosts (viewer : Viewer) (posts : List Post)
    (fs : List FriendEdge) : List Post :=
  posts.filter (fun p => canReadPost viewer p fs)

/-- PostDetail.fetchPost: SELECT over the posts table with .eq(id, postId);
the store applies the SELECT policy to every row before the id filter. -/
def fetchPostById (viewer : Viewer) (posts : List Post)
    (fs : List FriendEdge) (postId : Nat) : List Post :=
  (posts.filter (fun p => canReadPost viewer p fs)).filter (fun p => p.id == postId)

/-- Profile.fetchUserPosts: SELECT over the posts table with
.eq(author_id, authorId); the store applies the SELECT policy to every row
before the author filter. -/
def fetchUserPosts (viewer : Viewer) (posts : List Post)
    (fs : List FriendEdge) (authorId : UserId) : List Post :=
  (posts.filter (fun p => canReadPost viewer p fs)).filter
    (fun p => p.author_id == authorId)

/-- Feed.fetchPosts, shared-posts query: every shared_posts row (their
SELECT policy is USING true) embeds its referenced post; the embedded
resource is subject to the posts SELECT policy, is null when the policy
rejects the row for this viewer, and null embeds are then dropped by the
client's .filter(share => share.posts) step. -/
def fetchSharedJoinPosts (viewer : Viewer) (shares : List SharedPost)
    (posts : List Post) (fs : List FriendEdge) : List Post :=
  shares.flatMap (fun s =>
    (posts.filter (fun p => canReadPost viewer p fs)).filter
      (fun p => p.id == s.post_id))

/-- One run of Feed.fetchPosts over the raw store responses: the
original-posts query and the shared-posts query (whose rows carry a
possibly-null embedded post).  On success the two lists are combined,
sorted by created_at descending, and published; if either query returns an
error the code throws into the catch branch, which records an error message
and leaves the published posts as they were — the state initialised to the
empty list. -/
def runFetchPosts (state : List Post) (originalResp : Except DbError (List Post))
    (sharedResp : Except DbError (List (Option Post))) : List Post :=
  match originalResp, sharedResp with
  | Except.ok orig, Except.ok shared =>
      List.insertionSort (fun a b => b.created_at ≤ a.created_at)
        (orig ++ shared.filterMap id)
  | _, _ => state

theorem uidEq_true_iff (viewer : Viewer) (x : UserId) :
    uidEq viewer x = true ↔ viewer = some x := by
  cases viewer <;> simp [uidEq]

/-- Claim C1: a viewer V (possibly anonymous) can read a post P iff P is
public, or V is P's author, or P is friends-only and an accepted FriendEdge
connects V and P's author in either direction; in particular every identity
reads every public post, and a friends-only post with V distinct from the
author is read by V iff an accepted edge connects them. -/
theorem post_visibility_predicate (viewer : Viewer) (p : Post) (fs : List FriendEdge) :
    (canReadPost viewer p fs = true ↔
      (p.visibility = Visibility.public ∨ viewer = some p.author_id ∨
        (p.visibility = Visibility.friends ∧ ∃ e ∈ fs, e.status = FriendStatus.accepted ∧
          ((viewer = some e.sender_id ∧ e.receiver_id = p.author_id) ∨
           (viewer = some e.receiver_id ∧ e.sender_id = p.author_id))))) ∧
    (p.visibility = Visibility.public → canReadPost viewer p fs = true) ∧
    (p.visibility = Visibility.friends → viewer ≠ some p.author_id →
      (canReadPost viewer p fs = true ↔
        ∃ e ∈ fs, e.status = FriendStatus.accepted ∧
          ((viewer = some e.sender_id ∧ e.receiver_id = p.author_id) ∨
           (viewer = some e.receiver_id ∧ e.sender_id = p.author_id)))) := by
  have hmain : canReadPost viewer p fs = true ↔
      (p.visibility = Visibility.public ∨ viewer = some p.author_id ∨
        (p.visibility = Visibility.friends ∧ ∃ e ∈ fs, e.status = FriendStatus.accepted ∧
          ((viewer = some e.sender_id ∧ e.receiver_id = p.author_id) ∨
           (viewer = some e.receiver_id ∧ e.sender_id = p.author_id)))) := by
    simp only [canReadPost, Bool.or_eq_true, Bool.and_eq_true, List.any_eq_true,
      beq_iff_eq, uidEq_true_iff]
    constructor
    · rintro (⟨h | h⟩ | ⟨hv, e, he, hcon, hst⟩)
      · exact Or.inl h
      · exact Or.inr (Or.inl h)
      · refine Or.inr (Or.inr ⟨hv, e, he, hst, ?_⟩)
        rcases hcon with ⟨h1, h2⟩ | ⟨h1, h2⟩
        · exact Or.inl ⟨h1, h2⟩
        · exact Or.inr ⟨h1, h2⟩
    · rintro (h | h | ⟨hv, e, he, hst, hcon⟩)
      · exact Or.inl (Or.inl h)
      · exact Or.inl (Or.inr h)
      · refine Or.inr ⟨hv, e, he, ?_, hst⟩
        rcases hcon with ⟨h1, h2⟩ | ⟨h1, h2⟩
        · exact Or.inl ⟨h1, h2⟩
        · exact Or.inr ⟨h1, h2⟩
  refine ⟨hmain, ?_, ?_⟩
  · intro hpub
    exact hmain.2 (Or.inl hpub)
  · intro hfr hne
    constructor
    · intro h
      rcases hmain.1 h with hpub | hauth | ⟨_, hex⟩
      · rw [hpub] at hfr
        cases hfr
      · exact absurd hauth hne
      · exact hex
    · intro hex
      exact hmain.2 (Or.inr (Or.inr ⟨hfr, hex⟩))

/-- Claim C2 fails on the code: with a pending edge from user 2 to user 1 in
the friends table, user 1's create-friend-request insert towards user 2 is
accepted by UNIQUE(sender_id, receiver_id) — the constraint only rejects a
duplicate with the same ordered direction, as the second conjunct shows. -/
theorem duplicate_reverse_request_not_rejected :
    sendFriendRequest 1 2 7 5
        [{ id := 3, sender_id := 2, receiver_id := 1,
           status := FriendStatus.pending, created_at := 0 }] =
      Except.ok
        [{ id := 3, sender_id := 2, receiver_id := 1,
           status := FriendStatus.pending, created_at := 0 },
         { id := 7, sender_id := 1, receiver_id := 2,
           status := FriendStatus.pending, created_at := 5 }] ∧
    sendFriendRequest 2 1 7 5
        [{ id := 3, sender_id := 2, receiver_id := 1,
           status := FriendStatus.pending, created_at := 0 }] =
      Except.error DbError.uniqueViolation := by
  exact ⟨rfl, rfl⟩

/-- Claim C3 fails on the code: starting from a table holding exactly one
edge connecting users 1 and 2 (the pending edge from 2 to 1), the send
operation from user 1 towards user 2 succeeds and leaves two FriendEdge
rows connecting the unordered pair, counting both directions. -/
theorem unordered_pair_uniqueness_not_preserved :
    (edgesConnecting
        [{ id := 3, sender_id := 2, receiver_id := 1,
           status := FriendStatus.pending, created_at := 0 }] 1 2).length = 1 ∧
    sendFriendRequest 1 2 7 5
        [{ id := 3, sender_id := 2, receiver_id := 1,
           status := FriendStatus.pending, created_at := 0 }] =
      Except.ok
        [{ id := 3, sender_id := 2, receiver_id := 1,
           status := FriendStatus.pending, created_at := 0 },
         { id := 7, sender_id := 1, receiver_id := 2,
           status := FriendStatus.pending, created_at := 5 }] ∧
    (edgesConnecting
        [{ id := 3, sender_id := 2, receiver_id := 1,
           status := FriendStatus.pending, created_at := 0 },
         { id := 7, sender_id := 1, receiver_id := 2,
           status := FriendStatus.pending, created_at := 5 }] 1 2).length = 2 := by
  exact ⟨rfl, rfl, rfl⟩

/-- Claim C4: a pending FriendEdge is transitioned to accepted only by its
recipient: when the recipient acts on the edge's id the stored status
becomes accepted, while for any actor distinct from the recipient — the
requester in particular — the edge survives unchanged, still pending; and
when the actor is recipient of no row the whole table is unchanged. -/
theorem pending_accept_only_by_recipient (actor : UserId) (rid : Nat)
    (db : List FriendEdge) :
    (∀ e ∈ db, e.status = FriendStatus.pending →
      ((e.id = rid → actor = e.receiver_id →
          { e with status := FriendStatus.accepted } ∈ acceptFriendRequest actor rid db) ∧
       (actor ≠ e.receiver_id → e ∈ acceptFriendRequest actor rid db))) ∧
    ((∀ e ∈ db, actor ≠ e.receiver_id) → acceptFriendRequest actor rid db = db) := by
  constructor
  · intro e he _
    constructor
    · intro hid hact
      have hmem := List.mem_map_of_mem (fun e =>
        if e.id == rid && actor == e.receiver_id
        then { e with status := FriendStatus.accepted } else e) he
      simpa [acceptFriendRequest, hid, hact] using hmem
    · intro hne
      have hb : (actor == e.receiver_id) = false := beq_eq_false_iff_ne.mpr hne
      have hmem := List.mem_map_of_mem (fun e =>
        if e.id == rid && actor == e.receiver_id
        then { e with status := FriendStatus.accepted } else e) he
      simpa [acceptFriendRequest, hb] using hmem
  · intro h
    induction db with
    | nil => rfl
    | cons e rest ih =>
      have hb : (actor == e.receiver_id) = false :=
        beq_eq_false_iff_ne.mpr (h e (List.mem_cons_self e rest))
      have hrest := ih (fun x hx => h x (List.mem_cons_of_mem _ hx))
      simp only [acceptFriendRequest, List.map_cons, hb, Bool.and_false,
        if_neg Bool.false_ne_true] at *
      rw [hrest]

/-- Concrete instance: user 1, requester of the pending edge towards user 2,
attempts the accept; the edge is still present, unchanged and pending. -/
theorem pending_accept_only_by_recipient_witness :
    ({ id := 0, sender_id := 1, receiver_id := 2,
       status := FriendStatus.pending, created_at := 0 } : FriendEdge) ∈
      acceptFriendRequest 1 0
        [{ id := 0, sender_id := 1, receiver_id := 2,
           status := FriendStatus.pending, created_at := 0 }] :=
  (((pending_accept_only_by_recipient 1 0
      [{ id := 0, sender_id := 1, receiver_id := 2,
         status := FriendStatus.pending, created_at := 0 }]).1
    _ (List.mem_singleton.mpr rfl) rfl).2) (by decide)

/-- Claim C10: accepting a request touches only the status field: every row
of the table keeps its id, sender_id, receiver_id and created_at, and is
either wholly unchanged or equal to itself with status set to accepted, so
the requester and recipient roles recorded on the edge survive acceptance. -/
theorem accept_updates_only_status (actor : UserId) (rid : Nat)
    (db : List FriendEdge) :
    List.Forall₂ (fun e e2 =>
      e2.id = e.id ∧ e2.sender_id = e.sender_id ∧ e2.receiver_id = e.receiver_id ∧
      e2.created_at = e.created_at ∧
      (e2 = e ∨ e2 = { e with status := FriendStatus.accepted }))
      db (acceptFriendRequest actor rid db) := by
  induction db with
  | nil => exact List.Forall₂.nil
  | cons e rest ih =>
    refine List.Forall₂.cons ?_ ih
    by_cases h : (e.id == rid && actor == e.receiver_id) = true
    · simp [h]
    · simp [h]

theorem likePairExists_true_iff (db : List Like) (pid : Nat) (uid : UserId) :
    likePairExists db pid uid = true ↔
      ({ post_id := pid, user_id := uid } : Like) ∈ db := by
  simp only [likePairExists, List.any_eq_true, Bool.and_eq_true, beq_iff_eq]
  constructor
  · rintro ⟨l, hl, h1, h2⟩
    obtain ⟨lp, lu⟩ := l
    simp only at h1 h2
    subst h1
    subst h2
    exact hl
  · intro h
    exact ⟨_, h, rfl, rfl⟩

theorem mem_deleteLike (db : List Like) (pid : Nat) (uid : UserId) (l : Like) :
    l ∈ deleteLike db pid uid ↔
      l ∈ db ∧ ¬(l.post_id = pid ∧ l.user_id = uid) := by
  rw [deleteLike, List.mem_filter]
  constructor
  · rintro ⟨h1, h2⟩
    refine ⟨h1, ?_⟩
    intro hc
    simp [hc.1, hc.2] at h2
  · rintro ⟨h1, h2⟩
    refine ⟨h1, ?_⟩
    simp only [Bool.not_eq_eq_eq_not, Bool.not_true, Bool.and_eq_false_iff]
    rcases Decidable.em (l.post_id = pid) with hp | hp
    · refine Or.inr ?_
      have hu : l.user_id ≠ uid := fun hu => h2 ⟨hp, hu⟩
      simpa using hu
    · refine Or.inl ?_
      simpa using hp

theorem deleteLike_of_not_exists (db : List Like) (pid : Nat) (uid : UserId)
    (h : likePairExists db pid uid = false) : deleteLike db pid uid = db := by
  rw [deleteLike, List.filter_eq_self]
  intro l hl
  rw [likePairExists, List.any_eq_false] at h
  have h2 : ¬(l.post_id = pid ∧ l.user_id = uid) := by
    intro hc
    have h3 := h l hl
    simp [hc.1, hc.2] at h3
  simpa using not_and_or.mp h2

theorem likePairExists_deleteLike (db : List Like) (pid : Nat) (uid : UserId) :
    likePairExists (deleteLike db pid uid) pid uid = false := by
  rw [likePairExists, List.any_eq_false]
  intro l hl
  rw [deleteLike, List.mem_filter] at hl
  have h2 : ¬(l.post_id = pid ∧ l.user_id = uid) := by
    intro hc
    have h3 := hl.2
    simp [hc.1, hc.2] at h3
  simpa using fun hp hu => h2 ⟨hp, hu⟩

/-- Claim C5: toggling the like operation twice for the same (post, user)
pair returns the like set of the post to its original state: every row is a
member of the double-toggled table exactly when it was a member before;
moreover when the user had not liked the post the first toggle inserts the
(post, user) row and the second deletes it, and when the user had liked it
the first toggle deletes the row and the second re-inserts it. -/
theorem toggle_like_twice_restores (likes : List Like) (pid : Nat) (uid : UserId) :
    (∀ l, l ∈ toggleLike (toggleLike likes pid uid) pid uid ↔ l ∈ likes) ∧
    (likePairExists likes pid uid = false →
      toggleLike likes pid uid = likes ++ [{ post_id := pid, user_id := uid }] ∧
      toggleLike (toggleLike likes pid uid) pid uid = likes) ∧
    (likePairExists likes pid uid = true →
      toggleLike likes pid uid = deleteLike likes pid uid ∧
      toggleLike (toggleLike likes pid uid) pid uid =
        deleteLike likes pid uid ++ [{ post_id := pid, user_id := uid }]) := by
  by_cases h : likePairExists likes pid uid = true
  · have h1 : toggleLike likes pid uid = deleteLike likes pid uid := by
      rw [toggleLike, if_pos h]
    have h2 : toggleLike (toggleLike likes pid uid) pid uid =
        deleteLike likes pid uid ++ [{ post_id := pid, user_id := uid }] := by
      rw [h1, toggleLike, if_neg (by simp [likePairExists_deleteLike]),
        insertLike, if_neg (by simp [likePairExists_deleteLike])]
    refine ⟨?_, ?_, fun _ => ⟨h1, h2⟩⟩
    · intro l
      rw [h2]
      simp only [List.mem_append, mem_deleteLike, List.mem_singleton]
      constructor
      · rintro (⟨hl, _⟩ | rfl)
        · exact hl
        · exact (likePairExists_true_iff likes pid uid).mp h
      · intro hl
        rcases Decidable.em (l.post_id = pid ∧ l.user_id = uid) with hp | hp
        · refine Or.inr ?_
          obtain ⟨lp, lu⟩ := l
          obtain ⟨hpa, hpb⟩ := hp
          simp only at hpa hpb
          rw [hpa, hpb]
        · exact Or.inl ⟨hl, hp⟩
    · intro hf
      rw [h] at hf
      cases hf
  · have h0 : likePairExists likes pid uid = false := by
      simpa using h
    have h1 : toggleLike likes pid uid =
        likes ++ [{ post_id := pid, user_id := uid }] := by
      rw [toggleLike, if_neg (by simp [h0]), insertLike, if_neg (by simp [h0])]
    have hx : likePairExists
        (likes ++ [{ post_id := pid, user_id := uid }]) pid uid = true := by
      rw [likePairExists_true_iff]
      simp
    have h2 : toggleLike (toggleLike likes pid uid) pid uid = likes := by
      rw [h1, toggleLike, if_pos hx, deleteLike, List.filter_append]
      have hk := deleteLike_of_not_exists likes pid uid h0
      rw [deleteLike] at hk
      rw [hk]
      simp
    refine ⟨?_, fun _ => ⟨h1, h2⟩, ?_⟩
    · intro l
      rw [h2]
    · intro ht
      exact absurd ht h

/-- Concrete instance: user 1 toggles a like on post 0 twice starting from an
empty likes table; membership of the (0, 1) row is back to its original
(absent) state. -/
theorem toggle_like_twice_restores_witness :
    (({ post_id := 0, user_id := 1 } : Like) ∈ toggleLike (toggleLike [] 0 1) 0 1 ↔
      ({ post_id := 0, user_id := 1 } : Like) ∈ ([] : List Like)) ∧
    toggleLike ([] : List Like) 0 1 = [{ post_id := 0, user_id := 1 }] :=
  ⟨(toggle_like_twice_restores [] 0 1).1 _,
   ((toggle_like_twice_restores [] 0 1).2.1 rfl).1⟩

/-- Claim C6 as frozen is false on the code: user 2 attempts to edit and to
delete user 1's post, and to delete user 1's comment; every row survives
unchanged, yet every store reply carries a null error field — the attempts
are not rejected with an authorization error, they succeed affecting zero
rows, so the client's if-error-then-throw check never fires. -/
theorem non_author_mutation_raises_no_error :
    updatePostReply 2
        [{ id := 0, author_id := 1, content := "a", image_url := none,
           visibility := Visibility.public, created_at := 0 }] 0 "b" =
      ([{ id := 0, author_id := 1, content := "a", image_url := none,
          visibility := Visibility.public, created_at := 0 }], none) ∧
    deletePostReply 2
        [{ id := 0, author_id := 1, content := "a", image_url := none,
           visibility := Visibility.public, created_at := 0 }] 0 =
      ([{ id := 0, author_id := 1, content := "a", image_url := none,
          visibility := Visibility.public, created_at := 0 }], none) ∧
    deleteCommentReply 2
        [{ id := 0, post_id := 0, user_id := 1, content := "hi" }] 0 =
      ([{ id := 0, post_id := 0, user_id := 1, content := "hi" }], none) := by
  exact ⟨rfl, rfl, rfl⟩

/-- Claim C6, amended: post edit, post delete and comment delete take
effect only when the acting identity equals the authoring identity: a row
whose author differs from the actor survives both mutations unchanged,
while the author's own matching row is updated, respectively removed.  The
non-author attempt is not surfaced as an authorization error, though: the
filtered mutation succeeds affecting zero rows, so the store reply's error
field is always null. -/
theorem owner_only_content_mutations (actor : UserId) (posts : List Post)
    (comments : List Comment) (pid cid : Nat) (c : String) :
    (∀ p ∈ posts, p.author_id ≠ actor →
      p ∈ (updatePostReply actor posts pid c).1 ∧
      p ∈ (deletePostReply actor posts pid).1) ∧
    (∀ p ∈ posts, p.id = pid → p.author_id = actor →
      { p with content := c } ∈ (updatePostReply actor posts pid c).1 ∧
      p ∉ (deletePostReply actor posts pid).1) ∧
    (∀ cm ∈ comments, cm.user_id ≠ actor →
      cm ∈ (deleteCommentReply actor comments cid).1) ∧
    (∀ cm ∈ comments, cm.id = cid → cm.user_id = actor →
      cm ∉ (deleteCommentReply actor comments cid).1) ∧
    ((updatePostReply actor posts pid c).2 = none ∧
     (deletePostReply actor posts pid).2 = none ∧
     (deleteCommentReply actor comments cid).2 = none) := by
  simp only [updatePostReply, deletePostReply, deleteCommentReply]
  refine ⟨?_, ?_, ?_, ?_, trivial, trivial, trivial⟩
  · intro p hp hne
    have hb : (p.author_id == actor) = false := beq_eq_false_iff_ne.mpr hne
    constructor
    · have hmem := List.mem_map_of_mem (fun p =>
        if p.id == pid && p.author_id == actor
        then { p with content := c } else p) hp
      simpa [updatePost, hb] using hmem
    · rw [deletePost, List.mem_filter]
      exact ⟨hp, by simp [hb]⟩
  · intro p hp hid hact
    constructor
    · have hmem := List.mem_map_of_mem (fun p =>
        if p.id == pid && p.author_id == actor
        then { p with content := c } else p) hp
      simpa [updatePost, hid, hact] using hmem
    · rw [deletePost, List.mem_filter]
      rintro ⟨_, hkeep⟩
      simp [hid, hact] at hkeep
  · intro cm hcm hne
    have hb : (cm.user_id == actor) = false := beq_eq_false_iff_ne.mpr hne
    rw [deleteComment, List.mem_filter]
    exact ⟨hcm, by simp [hb]⟩
  · intro cm hcm hid hact
    rw [deleteComment, List.mem_filter]
    rintro ⟨_, hkeep⟩
    simp [hid, hact] at hkeep

/-- Concrete instance: user 2 attempts to edit user 1's post; the post
survives unchanged in the table of the store's reply. -/
theorem owner_only_content_mutations_witness :
    ({ id := 0, author_id := 1, content := "a", image_url := none,
       visibility := Visibility.public, created_at := 0 } : Post) ∈
      (updatePostReply 2
        [{ id := 0, author_id := 1, content := "a", image_url := none,
           visibility := Visibility.public, created_at := 0 }] 0 "b").1 :=
  (((owner_only_content_mutations 2
      [{ id := 0, author_id := 1, content := "a", image_url := none,
         visibility := Visibility.public, created_at := 0 }] [] 0 0 "b").1
    _ (List.mem_singleton.mpr rfl) (by decide)).1)

/-- Claim C7: the three-way visibility predicate decides every read path
identically: a post is in the feed fetch, in the fetch by its id, in the
fetch of its author's posts, and (given a share row) in the shared-post
join, exactly when canReadPost accepts the viewer and the post. -/
theorem read_paths_same_visibility (viewer : Viewer) (posts : List Post)
    (fs : List FriendEdge) (shares : List SharedPost) (p : Post) :
    (p ∈ fetchFeedPosts viewer posts fs ↔
      p ∈ posts ∧ canReadPost viewer p fs = true) ∧
    (p ∈ fetchPostById viewer posts fs p.id ↔
      p ∈ posts ∧ canReadPost viewer p fs = true) ∧
    (p ∈ fetchUserPosts viewer posts fs p.author_id ↔
      p ∈ posts ∧ canReadPost viewer p fs = true) ∧
    (p ∈ fetchSharedJoinPosts viewer shares posts fs ↔
      (∃ s ∈ shares, s.post_id = p.id) ∧
        p ∈ posts ∧ canReadPost viewer p fs = true) := by
  refine ⟨?_, ?_, ?_, ?_⟩
  · rw [fetchFeedPosts, List.mem_filter]
  · rw [fetchPostById, List.mem_filter, List.mem_filter]
    simp
  · rw [fetchUserPosts, List.mem_filter, List.mem_filter]
    simp
  · rw [fetchSharedJoinPosts, List.mem_flatMap]
    constructor
    · rintro ⟨s, hs, hmem⟩
      rw [List.mem_filter, List.mem_filter] at hmem
      obtain ⟨⟨hp, hc⟩, hid⟩ := hmem
      rw [beq_iff_eq] at hid
      exact ⟨⟨s, hs, hid.symm⟩, hp, hc⟩
    · rintro ⟨⟨s, hs, hid⟩, hp, hc⟩
      refine ⟨s, hs, ?_⟩
      rw [List.mem_filter, List.mem_filter]
      exact ⟨⟨hp, hc⟩, by simp [hid]⟩

theorem likesUnique_append (db : List Like) (pid : Nat) (uid : UserId)
    (h : likePairExists db pid uid = false) (hu : LikesUnique db) :
    LikesUnique (db ++ [{ post_id := pid, user_id := uid }]) := by
  rw [LikesUnique, List.pairwise_append]
  refine ⟨hu, List.pairwise_singleton _ _, ?_⟩
  intro a ha b hb
  rw [List.mem_singleton] at hb
  subst hb
  intro hcon
  rw [likePairExists, List.any_eq_false] at h
  have hne := h a ha
  simp only at hcon
  simp [hcon.1, hcon.2] at hne

theorem sharesUnique_append (db : List SharedPost) (pid : Nat) (uid : UserId)
    (h : sharePairExists db pid uid = false) (hu : SharesUnique db) :
    SharesUnique (db ++ [{ post_id := pid, user_id := uid }]) := by
  rw [SharesUnique, List.pairwise_append]
  refine ⟨hu, List.pairwise_singleton _ _, ?_⟩
  intro a ha b hb
  rw [List.mem_singleton] at hb
  subst hb
  intro hcon
  rw [sharePairExists, List.any_eq_false] at h
  have hne := h a ha
  simp only at hcon
  simp [hcon.1, hcon.2] at hne

/-- Claim C8: uniqueness of the join records is preserved by every like,
unlike, share and unshare operation: a successful insert, a delete and a
toggle each keep at most one Like and at most one SharedPost row per
(post, user) pair, and an insert whose pair is already present is rejected
by the persistence layer with a unique violation. -/
theorem join_pair_uniqueness_preserved (ldb : List Like) (sdb : List SharedPost)
    (l : Like) (s : SharedPost) (pid : Nat) (uid : UserId)
    (hl : LikesUnique ldb) (hs : SharesUnique sdb) :
    (∀ db2, insertLike ldb l = Except.ok db2 → LikesUnique db2) ∧
    (likePairExists ldb l.post_id l.user_id = true →
      insertLike ldb l = Except.error DbError.uniqueViolation) ∧
    LikesUnique (deleteLike ldb pid uid) ∧
    LikesUnique (toggleLike ldb pid uid) ∧
    (∀ db2, insertShare sdb s = Except.ok db2 → SharesUnique db2) ∧
    (sharePairExists sdb s.post_id s.user_id = true →
      insertShare sdb s = Except.error DbError.uniqueViolation) ∧
    SharesUnique (deleteShare sdb pid uid) ∧
    SharesUnique (toggleShare sdb pid uid) := by
  have hdel : LikesUnique (deleteLike ldb pid uid) :=
    List.Pairwise.sublist (List.filter_sublist _) hl
  have hdels : SharesUnique (deleteShare sdb pid uid) :=
    List.Pairwise.sublist (List.filter_sublist _) hs
  refine ⟨?_, ?_, hdel, ?_, ?_, ?_, hdels, ?_⟩
  · intro db2 hok
    rw [insertLike] at hok
    by_cases hc : likePairExists ldb l.post_id l.user_id = true
    · rw [if_pos hc] at hok
      cases hok
    · rw [if_neg hc] at hok
      injection hok with hdb2
      subst hdb2
      exact likesUnique_append ldb l.post_id l.user_id (by simpa using hc) hl
  · intro hex
    rw [insertLike, if_pos hex]
  · by_cases hc : likePairExists ldb pid uid = true
    · rw [toggleLike, if_pos hc]
      exact hdel
    · rw [toggleLike, if_neg hc]
      have hc0 : likePairExists ldb pid uid = false := by simpa using hc
      rw [insertLike]
      rw [if_neg (by simp [hc0])]
      exact likesUnique_append ldb pid uid hc0 hl
  · intro db2 hok
    rw [insertShare] at hok
    by_cases hc : sharePairExists sdb s.post_id s.user_id = true
    · rw [if_pos hc] at hok
      cases hok
    · rw [if_neg hc] at hok
      injection hok with hdb2
      subst hdb2
      exact sharesUnique_append sdb s.post_id s.user_id (by simpa using hc) hs
  · intro hex
    rw [insertShare, if_pos hex]
  · by_cases hc : sharePairExists sdb pid uid = true
    · rw [toggleShare, if_pos hc]
      exact hdels
    · rw [toggleShare, if_neg hc]
      have hc0 : sharePairExists sdb pid uid = false := by simpa using hc
      rw [insertShare]
      rw [if_neg (by simp [hc0])]
      exact sharesUnique_append sdb pid uid hc0 hs

/-- Concrete instance: deleting the (0, 1) like from a one-row table keeps
the uniqueness invariant. -/
theorem join_pair_uniqueness_preserved_witness :
    LikesUnique (deleteLike [({ post_id := 0, user_id := 1 } : Like)] 0 1) :=
  (join_pair_uniqueness_preserved [{ post_id := 0, user_id := 1 }] []
    { post_id := 5, user_id := 6 } { post_id := 5, user_id := 6 } 0 1
    (by simp [LikesUnique]) (by simp [SharesUnique])).2.2.1

/-- Claim C9: the feed read path fails closed: starting from the initial
empty posts state, a run of Feed.fetchPosts in which the original-posts
query or the shared-posts query returns a store error publishes no posts. -/
theorem feed_fetch_fails_closed (e : DbError)
    (sharedResp : Except DbError (List (Option Post))) (orig : List Post) :
    runFetchPosts [] (Except.error e) sharedResp = [] ∧
    runFetchPosts [] (Except.ok orig) (Except.error e) = [] := by
  constructor
  · cases sharedResp <;> rfl
  · rfl

/-- Concrete instance: the feed fetch of a one-post table decides membership
of the post by the visibility predicate. -/
theorem read_paths_same_visibility_witness :
    ({ id := 4, author_id := 2, content := "a", image_url := none,
       visibility := Visibility.public, created_at := 0 } : Post) ∈
        fetchFeedPosts (some 1)
          [{ id := 4, author_id := 2, content := "a", image_url := none,
             visibility := Visibility.public, created_at := 0 }] [] ↔
      ({ id := 4, author_id := 2, content := "a", image_url := none,
         visibility := Visibility.public, created_at := 0 } : Post) ∈
          [({ id := 4, author_id := 2, content := "a", image_url := none,
              visibility := Visibility.public, created_at := 0 } : Post)] ∧
        canReadPost (some 1)
          { id := 4, author_id := 2, content := "a", image_url := none,
            visibility := Visibility.public, created_at := 0 } [] = true :=
  (read_paths_same_visibility (some 1)
    [{ id := 4, author_id := 2, content := "a", image_url := none,
       visibility := Visibility.public, created_at := 0 }] [] []
    { id := 4, author_id := 2, content := "a", image_url := none,
      visibility := Visibility.public, created_at := 0 }).1

/-- Concrete instance: a run of the feed fetch whose original-posts query
errors publishes the empty list. -/
theorem feed_fetch_fails_closed_witness :
    runFetchPosts [] (Except.error DbError.uniqueViolation)
      (Except.ok ([] : List (Option Post))) = [] :=
  (feed_fetch_fails_closed DbError.uniqueViolation (Except.ok []) []).1

/-- Concrete instance: accepting the pending request with id 0 as user 2
keeps the row's id, sender, receiver and creation time. -/
theorem accept_updates_only_status_witness :
    List.Forall₂ (fun e e2 =>
      e2.id = e.id ∧ e2.sender_id = e.sender_id ∧ e2.receiver_id = e.receiver_id ∧
      e2.created_at = e.created_at ∧
      (e2 = e ∨ e2 = { e with status := FriendStatus.accepted }))
      [{ id := 0, sender_id := 1, receiver_id := 2,
         status := FriendStatus.pending, created_at := 9 }]
      (acceptFriendRequest 2 0
        [{ id := 0, sender_id := 1, receiver_id := 2,
           status := FriendStatus.pending, created_at := 9 }]) :=
  accept_updates_only_status 2 0
    [{ id := 0, sender_id := 1, receiver_id := 2,
       status := FriendStatus.pending, created_at := 9 }]

/-- Concrete instance of the visibility predicate: user 1 reads user 2's
public post with no friend rows present. -/
theorem post_visibility_predicate_witness :
    canReadPost (some 1)
      { id := 0, author_id := 2, content := "a", image_url := none,
        visibility := Visibility.public, created_at := 0 } [] = true :=
  (post_visibility_predicate (some 1)
    { id := 0, author_id := 2, content := "a", image_url := none,
      visibility := Visibility.public, created_at := 0 } []).2.1 rfl

end SocialApp
